import Mathlib

/-!
Shallow embedding of the answer-orchestration core of the Moroccan legal
assistant backend (`src/backend/app`): the history cache
(`rag_service.py`), the similarity-score normalisation and threshold
filter (`vector_store.py`), the confidence heuristic (`llm_service.py`),
the supervisor-output parsing chain (`crew_agent_service.py`), and the
`ask_question` pipeline that composes them.

Modelling conventions:
* Python `float` values are modelled by `ℚ` (the code only ever combines
  them with `+`, `max`, `min`, `/`, comparisons).
* Python strings are Lean `String`s; `str.strip()` is `String.trim`,
  `str.lower()` is `String.toLower`, `a in b` (substring) is `strContains`.
* Wall-clock quantities (`time.time()` deltas, `datetime.now()`) are
  passed in as explicit parameters or omitted when no claim mentions them
  (`timestamp` fields are omitted).
* Effectful calls (Chroma queries, Ollama/Gemini/CrewAI invocations,
  `uuid.uuid4()`) are passed in as explicit oracle inputs, so every
  function is a pure function of its inputs.
-/

namespace LegalAssistant

/-- Python list-prefix test on characters: `needle` is an initial segment
of `hay` (used to build the substring test below). -/
def chListLeads : List Char → List Char → Bool
  | [], _ => true
  | _ :: _, [] => false
  | c :: cs, d :: ds => c == d && chListLeads cs ds

/-- Python substring occurrence on characters: `needle` occurs contiguously
somewhere in `hay` (the semantics of Python's `needle in hay`). -/
def chListWithin : List Char → List Char → Bool
  | n, [] => chListLeads n []
  | n, d :: ds => chListLeads n (d :: ds) || chListWithin n ds

/-- Python's `needle in hay` substring operator on strings. -/
def strContains (hay needle : String) : Bool :=
  chListWithin needle.data hay.data

/-- Whitespace characters removed by Python's `str.strip()`. -/
def pyIsSpace (c : Char) : Bool :=
  c == ' ' || c == '\t' || c == '\n' || c == '\r' || c == '\x0b' || c == '\x0c'

/-- Python's `str.strip()`: remove leading and trailing whitespace. -/
def pyStrip (s : String) : String :=
  String.mk (((s.data.dropWhile pyIsSpace).reverse.dropWhile pyIsSpace).reverse)

/-- Python's `str.lower()`, modelled character-wise (the strings the
claims quantify over are compared with ASCII case-folding, which
`Char.toLower` implements). -/
def pyLower (s : String) : String :=
  String.mk (s.data.map Char.toLower)

/-- Embeds `question.strip().lower()` — the normalisation applied by both the
greeting detector and the history cache (`rag_service.py` lines 210, 256,
260). -/
def pyNormalize (s : String) : String :=
  pyLower (pyStrip s)

/-- Embeds `source.contenu[:200] + "..." if len(source.contenu) > 200 else
source.contenu` (`rag_service.py` line 302). -/
def pyTruncate (s : String) : String :=
  if s.length > 200 then String.mk (s.data.take 200) ++ "..." else s

/-- The `Source` pydantic model (`models/__init__.py`).  The `Optional[str]`
fields are modelled as plain strings, with `""` standing for `None`
(no claim distinguishes the two); `relevance_score : float` is `ℚ`. -/
structure Source where
  doc : String
  titre : String
  chapitre : String
  article : String
  contenu : String
  pages : String
  source_file : String
  relevance_score : ℚ
  deriving Repr, DecidableEq

/-- The `AnswerResponse` pydantic model, minus the wall-clock `timestamp`. -/
structure AnswerResponse where
  answer : String
  sources : List Source
  confidence_score : ℚ
  processing_time : ℚ
  deriving Repr, DecidableEq

/-- The source dict stored inside a history entry
(`rag_service.py` lines 297-305): the same fields as `Source` except that
`pages` is not stored and `contenu` is truncated. -/
structure StoredSource where
  doc : String
  titre : String
  chapitre : String
  article : String
  contenu : String
  source_file : String
  relevance_score : ℚ
  deriving Repr, DecidableEq

/-- A history entry dict (`rag_service.py` lines 292-310), minus the
wall-clock `timestamp`. -/
structure HistoryEntry where
  id : String
  question : String
  answer : String
  sources : List StoredSource
  confidence_score : ℚ
  deriving Repr, DecidableEq

/-- The per-source dict built by `_save_to_history` (lines 297-305):
every field copied verbatim except `contenu`, which goes through the
200-character truncation. -/
def mkStoredSource (s : Source) : StoredSource :=
  { doc := s.doc
    titre := s.titre
    chapitre := s.chapitre
    article := s.article
    contenu := pyTruncate s.contenu
    source_file := s.source_file
    relevance_score := s.relevance_score }

/-- The history entry built by `_save_to_history` (lines 292-310); `id`
is the fresh `uuid.uuid4()` string, passed in as an oracle. -/
def mkHistoryEntry (id question : String) (response : AnswerResponse) :
    HistoryEntry :=
  { id := id
    question := question
    answer := response.answer
    sources := response.sources.map mkStoredSource
    confidence_score := response.confidence_score }

/-- Embeds `_save_to_history` (lines 290-314): append the new entry, then
`self.conversation_history = self.conversation_history[-100:]` whenever
the length exceeds 100 (a Python `l[-100:]` on a list longer than 100 is
`l.drop (l.length - 100)`). -/
def saveToHistory (id question : String) (response : AnswerResponse)
    (history : List HistoryEntry) : List HistoryEntry :=
  let h := history ++ [mkHistoryEntry id question response]
  if h.length > 100 then h.drop (h.length - 100) else h

/-- The `Source(...)` reconstruction done by `_check_history_cache`
(lines 262-273): all stored fields copied back, `pages` left at its
pydantic default (`None`, modelled `""`). -/
def storedToSource (s : StoredSource) : Source :=
  { doc := s.doc
    titre := s.titre
    chapitre := s.chapitre
    article := s.article
    contenu := s.contenu
    pages := ""
    source_file := s.source_file
    relevance_score := s.relevance_score }

/-- The cached `AnswerResponse` rebuilt by `_check_history_cache`
(lines 276-282): stored answer text and confidence, reconstructed
sources, `processing_time = 0.0`. -/
def entryToResponse (e : HistoryEntry) : AnswerResponse :=
  { answer := e.answer
    sources := e.sources.map storedToSource
    confidence_score := e.confidence_score
    processing_time := 0 }

/-- Embeds `_check_history_cache` (lines 252-288): scan
`reversed(self.conversation_history)` (most recent first) for the first
entry whose `entry["question"].strip().lower()` equals the normalised
query, and rebuild the cached response from it. -/
def checkHistoryCache (history : List HistoryEntry) (question : String) :
    Option AnswerResponse :=
  let nq := pyNormalize question
  (history.reverse.find? (fun e => pyNormalize e.question == nq)).map
    entryToResponse

/-- Embeds `get_conversation_history` (lines 195-196): Python
`self.conversation_history[-limit:]`.  For `limit > 0` a negative-start
slice `l[-limit:]` is `l.drop (l.length - limit)` (natural subtraction
models the clamp to 0); for `limit = 0` the slice is `l[0:]`, the whole
list. -/
def getConversationHistory (history : List HistoryEntry) (limit : ℕ) :
    List HistoryEntry :=
  if limit = 0 then history else history.drop (history.length - limit)

/-- Python's two-argument `min` on floats (returns the first argument on
ties, which coincides with the mathematical minimum on `ℚ`). -/
def pyMin (a b : ℚ) : ℚ := if a ≤ b then a else b

/-- Python's two-argument `max` on floats (returns the first argument on
ties, which coincides with the mathematical maximum on `ℚ`). -/
def pyMax (a b : ℚ) : ℚ := if a < b then b else a

/-! ### Similarity search (`vector_store.py`) -/

/-- The distance-to-relevance normalisation shared verbatim by
`search_similar_documents` (lines 193-210) and
`search_documents_for_dataset` (lines 264-275): a missing distance is
accepted with score `1.0`; a distance in `[0,1]` maps to
`max 0 (1 - d)`; any other distance maps to `1 / (1 + d)`. -/
def similarityScore (distance : Option ℚ) : ℚ :=
  match distance with
  | none => 1
  | some d => if 0 ≤ d ∧ d ≤ 1 then pyMax 0 (1 - d) else 1 / (1 + d)

/-- One candidate returned by the Chroma query: the stored metadata dict
(string fields, written by `add_documents` lines 91-100) plus the raw
distance (`None` when the index returns no distances). -/
structure Candidate where
  doc : String
  titre : String
  chapitre : String
  article : String
  contenu : String
  pages : String
  source_file : String
  distance : Option ℚ
  deriving Repr, DecidableEq

/-- The `Source(...)` built from one accepted candidate
(`vector_store.py` lines 213-222). -/
def candidateToSource (c : Candidate) : Source :=
  { doc := c.doc
    titre := c.titre
    chapitre := c.chapitre
    article := c.article
    contenu := c.contenu
    pages := c.pages
    source_file := c.source_file
    relevance_score := similarityScore c.distance }

/-- The scoring-and-filtering loop of `search_similar_documents`
(lines 192-229, identical in `search_documents_for_dataset`): each
candidate is scored, and appended to the result iff
`similarity_score >= min_score`.  The candidate list stands for the
(already ranked) rows returned by `collection.query`. -/
def searchSimilarDocuments (candidates : List Candidate) (minScore : ℚ) :
    List Source :=
  candidates.filterMap fun c =>
    if minScore ≤ similarityScore c.distance then
      some (candidateToSource c)
    else
      none

/-! ### Confidence heuristic (`llm_service.py`) -/

/-- The legal-register keywords of `_calculate_confidence_score`
(line 233). -/
def legalKeywords : List String :=
  ["article", "loi", "décret", "code"]

/-- Embeds `_calculate_confidence_score` (`llm_service.py` lines 227-240):
`0.0` for an empty answer or an empty source list; otherwise base `0.5`,
`+0.2` if a legal keyword occurs in the lower-cased answer, `+0.2` if
some source's lower-cased `doc` occurs in the lower-cased answer,
`+0.1` if the answer length is in `[50, 2000]`, capped by
`min(score, 1.0)`. -/
def calculateConfidenceScore (answer : String) (sources : List Source) :
    ℚ :=
  if answer = "" ∨ sources = [] then 0
  else
    let score : ℚ := 1/2
    let score :=
      if legalKeywords.any (fun k => strContains (pyLower answer) k) then
        score + 1/5
      else score
    let score :=
      if sources.any (fun s => strContains (pyLower answer) (pyLower s.doc))
        then score + 1/5
      else score
    let score :=
      if 50 ≤ answer.length ∧ answer.length ≤ 2000 then score + 1/10
      else score
    pyMin score 1

/-- Modelled from the spec sentence for the confidence heuristic: base
0.5, +0.2 for a legal-register keyword, +0.2 for a cited document name
occurring in the answer, +0.1 for a length in `[50,2000]`, capped at
1.0 — with no special case for an empty answer or an empty source list.
Used to compare the spec's formula with `calculateConfidenceScore`. -/
def confidenceFormulaSpec (answer : String) (sources : List Source) : ℚ :=
  pyMin 1 ((1/2 : ℚ)
    + (if legalKeywords.any (fun k => strContains (pyLower answer) k)
        then 1/5 else 0)
    + (if sources.any (fun s => strContains (pyLower answer) (pyLower s.doc))
        then 1/5 else 0)
    + (if 50 ≤ answer.length ∧ answer.length ≤ 2000 then 1/10 else 0))

/-! ### Supervisor-output parsing (`crew_agent_service.py`) -/

/-- A Python value as seen by `_parse_supervisor_output`: a dict (already
structured, carrying the parse target `J` plus its `str()` rendering), a
plain string, or an arbitrary object with optional `raw` / `output`
attributes and a `str()` rendering. -/
inductive PyObj (J : Type) where
  | pdict (j : J) (asString : String)
  | pstr (s : String)
  | pobj (rawAttr : Option (PyObj J)) (outAttr : Option (PyObj J))
      (asString : String)
  deriving Repr

/-- Embeds `if hasattr(output, 'raw'): output = output.raw`
(`crew_agent_service.py` lines 270-271): dicts and strings have no such
attribute. -/
def unwrapRaw {J : Type} : PyObj J → PyObj J
  | .pobj (some r) _ _ => r
  | o => o

/-- Embeds `if hasattr(output, 'output'): output = output.output`
(lines 274-275), applied to the value left by the `raw` unwrapping. -/
def unwrapOut {J : Type} : PyObj J → PyObj J
  | .pobj _ (some t) _ => t
  | o => o

/-- Embeds `output_str = str(output) if not isinstance(output, str) else
output` (line 278). -/
def pyStr {J : Type} : PyObj J → String
  | .pstr s => s
  | .pdict _ s => s
  | .pobj _ _ s => s

/-- Whether the value is a Python dict — the `isinstance(output, dict)`
test of strategy (1). -/
def PyObj.isDict {J : Type} : PyObj J → Bool
  | .pdict _ _ => true
  | _ => false

/-- Embeds `re.search(r"\x7b.*\x7d", output_str, re.DOTALL)` (line 287):
with a greedy `.*` under DOTALL, the leftmost match runs from the first
opening brace to the last closing brace of the text, provided some
closing brace follows some opening brace; otherwise there is no match. -/
def extractBraceSubstring (s : String) : Option String :=
  let cs := s.data
  match cs.findIdx? (fun c => c == '\x7b'),
        cs.reverse.findIdx? (fun c => c == '\x7d') with
  | some i, some jr =>
    let j := cs.length - 1 - jr
    if i < j then some (String.mk ((cs.drop i).take (j - i + 1))) else none
  | _, _ => none

/-- Embeds `_parse_supervisor_output` (lines 263-296), parameterised by
the JSON parser `jp` (the model of `json.loads`, returning `none` where
Python raises `JSONDecodeError`): (1) a dict is returned as-is; (2) the
`raw` then `output` wrapper attributes are unwrapped; (3) the resulting
full text is JSON-parsed; (4) otherwise the brace-delimited substring is
extracted and JSON-parsed; `none` when everything fails.  The Lean
function is total, mirroring that the Python function catches every
`JSONDecodeError` and never raises. -/
def parseSupervisorOutput {J : Type} (jp : String → Option J) :
    PyObj J → Option J
  | .pdict j _ => some j
  | o =>
    let s := pyStr (unwrapOut (unwrapRaw o))
    match jp s with
    | some j => some j
    | none =>
      match extractBraceSubstring s with
      | none => none
      | some sub => jp sub

/-! ### Crew multi-agent run (`crew_agent_service.py` `run`) -/

/-- The fields of a parsed supervisor verdict that `ask_question` reads:
`parsed.get("answer")` and `parsed.get("confidence", 0.75)` (both may be
absent from the JSON object). -/
structure ParsedVerdict where
  answer : Option String
  confidence : Option ℚ
  deriving Repr

/-- The dict returned by `CrewMultiAgentService.run`: the parsed verdict
plus the injected `parsed["sources"]` list (line 127). -/
structure MAResult where
  answer : Option String
  confidence : Option ℚ
  sources : List Source
  deriving Repr

/-- Embeds the source-collection logic of `run` / `_prepare_dataset_contexts`
(lines 51-130, 201-220): `datasetSearches` holds, per dataset file, the
result of the per-dataset similarity search; datasets with no results are
skipped, the rest are aggregated in order into `_latest_sources`.  If no
dataset produced context there are no active agents and `run` returns
`None`; likewise when the kickoff output cannot be parsed
(`kickoffVerdict = none`, covering both a crew exception and a parse
failure).  On success the verdict is returned with
`sources := aggregated[: max(context_limit, 3)]`. -/
def crewRun (datasetSearches : List (List Source))
    (kickoffVerdict : Option ParsedVerdict) (contextLimit : ℕ) :
    Option MAResult :=
  let aggregated := datasetSearches.flatten
  if aggregated.isEmpty then none
  else
    match kickoffVerdict with
    | none => none
    | some p =>
      some { answer := p.answer
             confidence := p.confidence
             sources := aggregated.take (max contextLimit 3) }

/-! ### Greeting detection (`rag_service.py` `_handle_greetings`) -/

/-- The greeting/closing/thanks phrase list (`rag_service.py`
lines 213-219). -/
def greetingsList : List String :=
  ["bonjour", "bonsoir", "salut", "hello", "hi", "hey", "coucou",
   "bonne journée", "bonne soirée", "bon matin", "good morning",
   "good evening", "good afternoon", "salam", "salam alaykoum",
   "merci", "thank you", "thanks", "شكرا", "au revoir", "bye",
   "à bientôt", "goodbye"]

/-- Thanks markers tested by substring (line 233). -/
def thanksWords : List String := ["merci", "thank", "شكرا"]

/-- Closing markers tested by substring (line 235). -/
def byeWords : List String := ["au revoir", "bye", "goodbye", "à bientôt"]

/-- Default canned greeting text (lines 226-230). -/
def defaultGreetingText : String :=
  "Bonjour ! Je suis votre assistant juridique marocain. Je peux vous aider à répondre à vos questions sur le droit marocain. N\x27hésitez pas à me poser une question juridique !"

/-- Canned thanks text (line 234). -/
def thanksText : String :=
  "De rien ! N\x27hésitez pas si vous avez d\x27autres questions juridiques."

/-- Canned closing text (line 236). -/
def byeText : String :=
  "Au revoir ! N\x27hésitez pas à revenir si vous avez des questions juridiques."

/-- The "no information found" answer text (`rag_service.py` line 112). -/
def noInfoText : String :=
  "Je n\x27ai pas trouvé d\x27informations pertinentes dans les documents juridiques disponibles pour répondre à votre question."

/-- The canned answer built inside `_handle_greetings` (lines 226-244):
thanks / closing text variants chosen by substring tests on the
normalised question, with confidence `1.0`, no sources and processing
time `0.0`. -/
def greetingResponseFor (question : String) : AnswerResponse :=
  let normalized := pyNormalize question
  { answer :=
      if thanksWords.any (fun w => strContains normalized w) then thanksText
      else if byeWords.any (fun w => strContains normalized w) then byeText
      else defaultGreetingText
    sources := []
    confidence_score := 1
    processing_time := 0 }

/-- Embeds `_handle_greetings` (lines 207-250): when the trimmed
lower-cased question is exactly one of the configured phrases, return
`greetingResponseFor question`; otherwise `None`. -/
def handleGreetings (question : String) : Option AnswerResponse :=
  let normalized := pyNormalize question
  if greetingsList.contains normalized then
    some (greetingResponseFor question)
  else
    none

/-! ### The `ask_question` pipeline (`rag_service.py` lines 59-157) -/

/-- The effectful inputs of one `ask_question` run, passed as oracles:
the multi-agent result (`None` when CrewAI is unavailable or failed),
the classical similarity search result (the code issues the same
`search_similar_documents(question, max(5, context_limit), 0.0)` call in
both places that need it, and Chroma answers a fixed query
deterministically, so one list serves both), the raw Ollama completion,
Gemini availability and its validation output, the measured elapsed
time, and the fresh uuid for the history entry. -/
structure AskOracles where
  ma : Option MAResult
  searchResults : List Source
  ollamaText : String
  geminiAvailable : Bool
  geminiAnswer : String
  geminiScore : ℚ
  elapsed : ℚ
  newId : String

/-- Python truthiness of `multi_agent_result.get("answer")`: a present,
non-empty string. -/
def answerTruthy : Option String → Bool
  | some s => !(s == "")
  | none => false

/-- The tail of `ask_question` shared by the multi-agent and classical
generation paths (lines 128-147): optional Gemini validation (replace
the answer text, raise the confidence to the max of the two scores),
build the response, append it to the history. -/
def finishGeneration (question : String) (history : List HistoryEntry)
    (o : AskOracles) (answerText : String) (conf : ℚ)
    (sources : List Source) : AnswerResponse × List HistoryEntry :=
  let answerText := if o.geminiAvailable then o.geminiAnswer else answerText
  let conf := if o.geminiAvailable then pyMax conf o.geminiScore else conf
  let resp : AnswerResponse :=
    { answer := answerText
      sources := sources
      confidence_score := conf
      processing_time := o.elapsed }
  (resp, saveToHistory o.newId question resp history)

/-- The classical RAG path of `ask_question` (lines 102-126): search with
`min_score = 0`; when nothing is found, return the fixed "no information"
answer with confidence `0.0` and no sources (without touching the
history); otherwise generate with Ollama (the returned text is stripped
and scored by `_calculate_confidence_score`, `llm_service.py`
lines 104-105) and finish. -/
def classicPath (question : String) (history : List HistoryEntry)
    (o : AskOracles) : AnswerResponse × List HistoryEntry :=
  if o.searchResults.isEmpty then
    ({ answer := noInfoText
       sources := []
       confidence_score := 0
       processing_time := o.elapsed }, history)
  else
    let answerText := pyStrip o.ollamaText
    let conf := calculateConfidenceScore answerText o.searchResults
    finishGeneration question history o answerText conf o.searchResults

/-- Embeds `ask_question` (lines 59-157) as a pure state-passing function
returning the response and the updated conversation history: greeting
short-circuit, then history-cache short-circuit (both leave the history
untouched), then the multi-agent path when its result carries a truthy
`answer` (falling back to the classical search when it carries no
sources, and reading `confidence` with default `0.75`), otherwise the
classical path. -/
def askQuestion (question : String) (history : List HistoryEntry)
    (o : AskOracles) : AnswerResponse × List HistoryEntry :=
  match handleGreetings question with
  | some g => (g, history)
  | none =>
    match checkHistoryCache history question with
    | some c => (c, history)
    | none =>
      match o.ma with
      | some r =>
        if answerTruthy r.answer then
          let sources :=
            if r.sources.isEmpty then o.searchResults else r.sources
          finishGeneration question history o (r.answer.getD "")
            (r.confidence.getD (3/4)) sources
        else
          classicPath question history o
      | none => classicPath question history o

/-! ### Service state: in-memory history vs the on-disk file
(`rag_service.py` lines 198-205, 322-344) -/

/-- The slice of `RAGService` state the history claims are about: the
in-memory `conversation_history` list and the contents of
`conversation_history.json` (`none` when the file does not exist). -/
structure RAGState where
  conversation_history : List HistoryEntry
  historyFile : Option (List HistoryEntry)
  deriving Repr

/-- Embeds `clear_history` (lines 198-205): `self.conversation_history.clear()`
then `return True` — no call to `_persist_history_to_file`. -/
def clearHistory (s : RAGState) : RAGState × Bool :=
  ({ s with conversation_history := [] }, true)

/-- Embeds `_persist_history_to_file` (lines 336-344): rewrite the file
with the current in-memory history. -/
def persistHistoryToFile (s : RAGState) : RAGState :=
  { s with historyFile := some s.conversation_history }

/-- Embeds `_load_history_from_file` (lines 322-334), run at service
construction: load the file when it exists, otherwise start empty. -/
def loadHistoryFromFile (s : RAGState) : RAGState :=
  { s with conversation_history := s.historyFile.getD [] }

/-- Embeds the state effect of `_save_to_history` (lines 290-320):
append-and-truncate in memory, then persist the new history to the
file. -/
def saveToHistoryState (id question : String) (response : AnswerResponse)
    (s : RAGState) : RAGState :=
  persistHistoryToFile
    { s with conversation_history :=
        saveToHistory id question response s.conversation_history }

/-! ### Example fixtures used by witnesses and counterexamples -/

/-- An example candidate pair used by witnesses: distances `1/10` and
`4/5`, hence relevance `9/10` and `1/5`. -/
def exampleCandidates : List Candidate :=
  [{ doc := "d1", titre := "", chapitre := "", article := "",
     contenu := "c1", pages := "", source_file := "f1",
     distance := some (1/10) },
   { doc := "d2", titre := "", chapitre := "", article := "",
     contenu := "c2", pages := "", source_file := "f2",
     distance := some (4/5) }]

/-- An example source whose `doc` field is cited in the witness answer
below. -/
def exampleSource : Source :=
  { doc := "Code de commerce", titre := "", chapitre := "", article := "",
    contenu := "c", pages := "", source_file := "f",
    relevance_score := 1 }

/-- An example recorded answer used by witnesses. -/
def exampleAnswer : AnswerResponse :=
  { answer := "Réponse sourcée."
    sources := [exampleSource]
    confidence_score := 9/10
    processing_time := 2 }

/-- A content string of 201 characters. -/
def longContenu : String := String.mk (List.replicate 201 'a')

/-- A source whose content exceeds 200 characters. -/
def longSource : Source :=
  { doc := "d", titre := "", chapitre := "", article := "",
    contenu := longContenu, pages := "", source_file := "f",
    relevance_score := 1 }

/-- An answer citing `longSource`, used by the C6 counterexample and
witness. -/
def longAnswer : AnswerResponse :=
  { answer := "a", sources := [longSource], confidence_score := 1,
    processing_time := 0 }

/-- A history already holding 100 entries, used by the C6 witness. -/
def exampleFullHistory : List HistoryEntry :=
  List.replicate 100 (mkHistoryEntry "i" "q" longAnswer)

/-- A toy JSON parser used by the C4 witness: it accepts exactly the
string `"\x7b1\x7d"`. -/
def exampleJsonParse : String → Option ℕ :=
  fun s => if s = "\x7b1\x7d" then some 1 else none

/-- A supervisor output consisting of JSON embedded in prose. -/
def exampleSupOutput : PyObj ℕ :=
  PyObj.pstr "Réponse finale: \x7b1\x7d — fin."

/-- A three-entry history used by the listing witness. -/
def exampleHistory : List HistoryEntry :=
  [{ id := "1", question := "q1", answer := "a1", sources := [],
     confidence_score := 1 },
   { id := "2", question := "q2", answer := "a2", sources := [],
     confidence_score := 1 },
   { id := "3", question := "q3", answer := "a3", sources := [],
     confidence_score := 1 }]

/-- Oracles describing a run where CrewAI found no context and the
classical search returned nothing. -/
def emptyOracles : AskOracles :=
  { ma := crewRun [[]] none 0
    searchResults := []
    ollamaText := ""
    geminiAvailable := false
    geminiAnswer := ""
    geminiScore := 0
    elapsed := 0
    newId := "id0" }

/-! ## Theorems -/

/-- C2: for every raw distance `d` with `0 ≤ d ≤ 1` the computed
relevance score equals `1 − d`; for every `d > 1` it equals `1/(1+d)`;
in both cases the score lies in `[0, 1]`. -/
theorem distance_relevance_normalization (d : ℚ) :
    (0 ≤ d → d ≤ 1 → similarityScore (some d) = 1 - d ∧
      0 ≤ (1 - d) ∧ (1 - d) ≤ 1) ∧
    (1 < d → similarityScore (some d) = 1 / (1 + d) ∧
      0 ≤ 1 / (1 + d) ∧ 1 / (1 + d) ≤ 1) := by
  constructor
  · intro h0 h1
    refine ⟨?_, by linarith, by linarith⟩
    simp only [similarityScore, if_pos (And.intro h0 h1), pyMax]
    split_ifs with hx
    · rfl
    · linarith
  · intro h
    have hne : ¬ (0 ≤ d ∧ d ≤ 1) := fun ⟨_, h1⟩ => absurd h (not_lt.mpr h1)
    have hpos : (0 : ℚ) < 1 + d := by linarith
    refine ⟨?_, by positivity, ?_⟩
    · simp only [similarityScore, if_neg hne]
    · rw [div_le_one hpos]; linarith

/-- Witness for C2 at the concrete distances `d = 1/2` and `d = 3`. -/
theorem distance_relevance_normalization_witness :
    ((0 : ℚ) ≤ 1/2 ∧ (1/2 : ℚ) ≤ 1 ∧
      (similarityScore (some (1/2 : ℚ)) = 1 - 1/2 ∧
        (0 : ℚ) ≤ 1 - 1/2 ∧ (1 - 1/2 : ℚ) ≤ 1)) ∧
    ((1 : ℚ) < 3 ∧
      (similarityScore (some (3 : ℚ)) = 1 / (1 + 3) ∧
        (0 : ℚ) ≤ 1 / (1 + 3) ∧ (1 / (1 + 3) : ℚ) ≤ 1)) :=
  ⟨⟨by norm_num, by norm_num,
    (distance_relevance_normalization (1/2)).1 (by norm_num) (by norm_num)⟩,
   ⟨by norm_num, (distance_relevance_normalization 3).2 (by norm_num)⟩⟩

/-- C3: every source returned by the search has
`relevance_score ≥ min_score` (candidates below the threshold are
dropped), and over a fixed candidate set, raising the threshold never
increases the number of returned sources. -/
theorem search_threshold_filter_monotone (candidates : List Candidate)
    (t t' : ℚ) :
    (∀ src ∈ searchSimilarDocuments candidates t,
      t ≤ src.relevance_score) ∧
    (t ≤ t' →
      (searchSimilarDocuments candidates t').length ≤
        (searchSimilarDocuments candidates t).length) := by
  constructor
  · intro src hsrc
    simp only [searchSimilarDocuments, List.mem_filterMap] at hsrc
    obtain ⟨c, _, hc⟩ := hsrc
    by_cases h : t ≤ similarityScore c.distance
    · rw [if_pos h, Option.some_inj] at hc
      rw [← hc]
      exact h
    · rw [if_neg h] at hc
      exact absurd hc (Option.noConfusion)
  · intro htt'
    induction candidates with
    | nil => simp [searchSimilarDocuments]
    | cons c cs ih =>
      simp only [searchSimilarDocuments, List.filterMap_cons] at ih ⊢
      by_cases h' : t' ≤ similarityScore c.distance
      · have h : t ≤ similarityScore c.distance := le_trans htt' h'
        simp only [if_pos h, if_pos h', List.length_cons]
        exact Nat.succ_le_succ ih
      · by_cases h : t ≤ similarityScore c.distance
        · simp only [if_pos h, if_neg h', List.length_cons]
          exact le_trans ih (Nat.le_succ _)
        · simp only [if_neg h, if_neg h']
          exact ih

/-- Witness for C3 at the concrete candidate pair and thresholds
`t = 1/2 ≤ t' = 3/4`. -/
theorem search_threshold_filter_monotone_witness :
    (∀ src ∈ searchSimilarDocuments exampleCandidates (1/2),
      (1/2 : ℚ) ≤ src.relevance_score) ∧
    ((1/2 : ℚ) ≤ 3/4 ∧
      (searchSimilarDocuments exampleCandidates (3/4)).length ≤
        (searchSimilarDocuments exampleCandidates (1/2)).length) :=
  ⟨(search_threshold_filter_monotone exampleCandidates (1/2) (1/2)).1,
   by norm_num,
   (search_threshold_filter_monotone exampleCandidates (1/2) (3/4)).2
     (by norm_num)⟩

/-- C8 counterexample: the claim's formula predicts a base score of
`0.5` for the empty answer with no sources (no keyword bonus, no
document-name bonus, length 0 outside `[50, 2000]`), but the code's
early `if not answer or not sources: return 0.0` yields `0.0`. -/
theorem confidence_heuristic_counterexample :
    calculateConfidenceScore "" [] = 0 ∧
    confidenceFormulaSpec "" [] = 1/2 ∧
    calculateConfidenceScore "" [] ≠ confidenceFormulaSpec "" [] := by
  have h1 : (legalKeywords.any fun k => strContains (pyLower "") k) = false := by
    decide
  have h3 : ¬ (50 ≤ ("" : String).length ∧ ("" : String).length ≤ 2000) := by
    decide
  have hform : confidenceFormulaSpec "" [] = 1/2 := by
    simp only [confidenceFormulaSpec, h1, List.any_nil, Bool.false_eq_true,
      if_false, if_neg h3]
    simp only [pyMin]
    norm_num
  refine ⟨rfl, hform, ?_⟩
  rw [hform, show calculateConfidenceScore "" [] = 0 from rfl]
  norm_num

/-- C8 (amended): for every non-empty answer text and non-empty source
list, the confidence score equals base `0.5`, plus `0.2` if a
legal-register keyword appears in the answer, plus `0.2` if a cited
document name appears in the answer text, plus `0.1` if the answer
length is within `[50, 2000]`, capped at `1.0`; for an empty answer or
an empty source list it is `0.0`. -/
theorem confidence_heuristic_amended (answer : String)
    (sources : List Source) (ha : answer ≠ "") (hs : sources ≠ []) :
    calculateConfidenceScore answer sources =
      confidenceFormulaSpec answer sources := by
  have hcond : ¬ (answer = "" ∨ sources = []) := by
    rintro (h | h)
    · exact ha h
    · exact hs h
  simp only [calculateConfidenceScore, confidenceFormulaSpec,
    if_neg hcond]
  split_ifs <;> norm_num [pyMin]

/-- Witness for C8 at a concrete answer and source list. -/
theorem confidence_heuristic_amended_witness :
    calculateConfidenceScore "Selon la loi." [exampleSource] =
      confidenceFormulaSpec "Selon la loi." [exampleSource] :=
  confidence_heuristic_amended "Selon la loi." [exampleSource]
    (by decide) (by decide)

/-- Appending to the history always leaves the new entry as the last
element: the truncation to the most recent 100 entries only drops from
the front. -/
theorem saveToHistory_eq_append (id q : String) (a : AnswerResponse)
    (h : List HistoryEntry) :
    ∃ h₀ : List HistoryEntry,
      saveToHistory id q a h = h₀ ++ [mkHistoryEntry id q a] := by
  simp only [saveToHistory]
  by_cases hlen : (h ++ [mkHistoryEntry id q a]).length > 100
  · rw [if_pos hlen]
    have hk : (h ++ [mkHistoryEntry id q a]).length - 100 ≤ h.length := by
      simp only [List.length_append, List.length_singleton]
      omega
    exact ⟨h.drop ((h ++ [mkHistoryEntry id q a]).length - 100),
      List.drop_append_of_le_length hk⟩
  · rw [if_neg hlen]
    exact ⟨h, rfl⟩

/-- A cache lookup on a history ending in a matching entry returns that
entry (the scan runs most-recent-first, so the last entry is examined
first). -/
theorem checkHistoryCache_append_match (h : List HistoryEntry)
    (e : HistoryEntry) (q : String)
    (hm : pyNormalize e.question = pyNormalize q) :
    checkHistoryCache (h ++ [e]) q = some (entryToResponse e) := by
  simp only [checkHistoryCache, List.reverse_append, List.reverse_cons,
    List.reverse_nil, List.nil_append, List.singleton_append]
  rw [List.find?_cons_of_pos _ (by simp [hm])]
  rfl

/-- C1: after recording an answer for a question, looking up any question
that is identical up to whitespace-trimming and lower-casing returns a
cached answer whose text (and confidence) is byte-identical to the
recorded one with processing time 0; and the scan is most-recent-first —
a matching entry at the most recent position wins regardless of what
older entries contain. -/
theorem exact_match_cache (h : List HistoryEntry) (id q q' : String)
    (a : AnswerResponse) (hq : pyNormalize q' = pyNormalize q) :
    (∃ r, checkHistoryCache (saveToHistory id q a h) q' = some r ∧
       r.answer = a.answer ∧ r.processing_time = 0 ∧
       r.confidence_score = a.confidence_score) ∧
    (∀ (h₁ : List HistoryEntry) (e : HistoryEntry),
       pyNormalize e.question = pyNormalize q' →
       checkHistoryCache (h₁ ++ [e]) q' = some (entryToResponse e)) := by
  constructor
  · obtain ⟨h₀, hsave⟩ := saveToHistory_eq_append id q a h
    rw [hsave, checkHistoryCache_append_match h₀ (mkHistoryEntry id q a) q'
      hq.symm]
    exact ⟨entryToResponse (mkHistoryEntry id q a), rfl, rfl, rfl, rfl⟩
  · intro h₁ e he
    exact checkHistoryCache_append_match h₁ e q' he

/-- Witness for C1: record an answer for a question, then ask the same
question with different case and surrounding whitespace. -/
theorem exact_match_cache_witness :
    (pyNormalize "  quelle loi ? " = pyNormalize "Quelle Loi ?") ∧
    ((∃ r, checkHistoryCache
        (saveToHistory "id0" "Quelle Loi ?" exampleAnswer [])
        "  quelle loi ? " = some r ∧
       r.answer = exampleAnswer.answer ∧ r.processing_time = 0 ∧
       r.confidence_score = exampleAnswer.confidence_score) ∧
     (∀ (h₁ : List HistoryEntry) (e : HistoryEntry),
       pyNormalize e.question = pyNormalize "  quelle loi ? " →
       checkHistoryCache (h₁ ++ [e]) "  quelle loi ? " =
         some (entryToResponse e))) :=
  ⟨by decide,
   exact_match_cache [] "id0" "Quelle Loi ?" "  quelle loi ? "
     exampleAnswer (by decide)⟩

/-- The stored content string never exceeds 203 characters: at most the
200 kept characters plus the three appended dots. -/
theorem pyTruncate_length_le (t : String) : (pyTruncate t).length ≤ 203 := by
  simp only [pyTruncate]
  split_ifs with ht
  · have hlen : (String.mk (t.data.take 200) ++ "...").length =
        (t.data.take 200).length + 3 := by
      rw [String.length_append]
      rfl
    rw [hlen]
    have := List.length_take_le 200 t.data
    omega
  · simp only [String.length] at ht ⊢
    omega

set_option maxRecDepth 100000 in
/-- C6 counterexample: the entry recorded for `longAnswer` stores a
source content of length 203, so stored contents are not capped at 200
characters. -/
theorem history_truncation_counterexample :
    ((mkHistoryEntry "i" "q" longAnswer).sources.map
        fun s => s.contenu.length) = [203] ∧
    ¬ (∀ s ∈ (mkHistoryEntry "i" "q" longAnswer).sources,
        s.contenu.length ≤ 200) := by
  constructor
  · decide
  · decide

/-- C6 (amended): appending beyond 100 entries retains exactly the 100
most recent entries, oldest-first order preserved among survivors; each
stored source's content is the original content when that is at most 200
characters long, and otherwise its first 200 characters with `"..."`
appended, so its stored length is at most 203 (not 200). -/
theorem history_bound_truncation_amended (h : List HistoryEntry)
    (id q : String) (a : AnswerResponse) :
    ((h ++ [mkHistoryEntry id q a]).length > 100 →
      saveToHistory id q a h =
        (h ++ [mkHistoryEntry id q a]).drop
          ((h ++ [mkHistoryEntry id q a]).length - 100) ∧
      (saveToHistory id q a h).length = 100) ∧
    ((h ++ [mkHistoryEntry id q a]).length ≤ 100 →
      saveToHistory id q a h = h ++ [mkHistoryEntry id q a]) ∧
    (mkHistoryEntry id q a).sources.length = a.sources.length ∧
    (∀ s ∈ (mkHistoryEntry id q a).sources, s.contenu.length ≤ 203) ∧
    (∀ src ∈ a.sources, src.contenu.length ≤ 200 →
      (mkStoredSource src).contenu = src.contenu) := by
  refine ⟨?_, ?_, ?_, ?_, ?_⟩
  · intro hlen
    have heq : saveToHistory id q a h =
        (h ++ [mkHistoryEntry id q a]).drop
          ((h ++ [mkHistoryEntry id q a]).length - 100) := by
      simp only [saveToHistory, if_pos hlen]
    refine ⟨heq, ?_⟩
    rw [heq, List.length_drop]
    omega
  · intro hlen
    simp only [saveToHistory, if_neg (not_lt.mpr hlen)]
  · simp only [mkHistoryEntry, List.length_map]
  · intro s hs
    simp only [mkHistoryEntry, List.mem_map] at hs
    obtain ⟨src, _, rfl⟩ := hs
    exact pyTruncate_length_le src.contenu
  · intro src _ hle
    simp only [mkStoredSource, pyTruncate, if_neg (not_lt.mpr hle)]

/-- Witness for C6 on a history of 100 entries (the truncation branch)
and on the short-content preservation clause. -/
theorem history_bound_truncation_amended_witness :
    ((exampleFullHistory ++ [mkHistoryEntry "i" "q" longAnswer]).length >
        100 ∧
      (saveToHistory "i" "q" longAnswer exampleFullHistory =
        (exampleFullHistory ++ [mkHistoryEntry "i" "q" longAnswer]).drop
          ((exampleFullHistory ++
            [mkHistoryEntry "i" "q" longAnswer]).length - 100) ∧
       (saveToHistory "i" "q" longAnswer exampleFullHistory).length =
         100)) ∧
    (exampleSource.contenu.length ≤ 200 ∧
      (mkStoredSource exampleSource).contenu = exampleSource.contenu) :=
  ⟨⟨by simp [exampleFullHistory],
    (history_bound_truncation_amended exampleFullHistory "i" "q"
      longAnswer).1 (by simp [exampleFullHistory])⟩,
   ⟨by decide,
    (history_bound_truncation_amended [] "i" "q"
      exampleAnswer).2.2.2.2 exampleSource (by
        simp [exampleAnswer]) (by decide)⟩⟩

/-- C4: the supervisor output is interpreted by an ordered fallback chain
— (1) an already-structured dict is returned as-is; (2) the `raw` /
`output` wrapper attributes are unwrapped; (3) the resulting full text is
JSON-parsed; (4) otherwise the brace-delimited substring is extracted and
JSON-parsed; when everything fails the parser returns `none` (never a
partial object).  The function is total for every parser `jp`, mirroring
that the Python code never raises. -/
theorem supervisor_output_fallback_chain {J : Type}
    (jp : String → Option J) (o : PyObj J)
    (hnd : o.isDict = false) :
    (∀ (d : J) (str : String),
      parseSupervisorOutput jp (PyObj.pdict d str) = some d) ∧
    (∀ j, jp (pyStr (unwrapOut (unwrapRaw o))) = some j →
      parseSupervisorOutput jp o = some j) ∧
    (jp (pyStr (unwrapOut (unwrapRaw o))) = none →
      ∀ sub, extractBraceSubstring (pyStr (unwrapOut (unwrapRaw o))) =
          some sub →
        parseSupervisorOutput jp o = jp sub) ∧
    (jp (pyStr (unwrapOut (unwrapRaw o))) = none →
      extractBraceSubstring (pyStr (unwrapOut (unwrapRaw o))) = none →
      parseSupervisorOutput jp o = none) := by
  refine ⟨fun d str => rfl, ?_, ?_, ?_⟩
  · intro j hj
    cases o with
    | pdict d s => simp [PyObj.isDict] at hnd
    | pstr s =>
      simp only [parseSupervisorOutput]
      rw [hj]
    | pobj r t s =>
      simp only [parseSupervisorOutput]
      rw [hj]
  · intro hn sub hsub
    cases o with
    | pdict d s => simp [PyObj.isDict] at hnd
    | pstr s =>
      simp only [parseSupervisorOutput]
      rw [hn, hsub]
    | pobj r t s =>
      simp only [parseSupervisorOutput]
      rw [hn, hsub]
  · intro hn hnone
    cases o with
    | pdict d s => simp [PyObj.isDict] at hnd
    | pstr s =>
      simp only [parseSupervisorOutput]
      rw [hn, hnone]
    | pobj r t s =>
      simp only [parseSupervisorOutput]
      rw [hn, hnone]

/-- Witness for C4: JSON embedded in prose is recovered by the
brace-extraction fallback. -/
theorem supervisor_output_fallback_chain_witness :
    exampleSupOutput.isDict = false ∧
    exampleJsonParse (pyStr (unwrapOut (unwrapRaw exampleSupOutput))) =
      none ∧
    extractBraceSubstring
      (pyStr (unwrapOut (unwrapRaw exampleSupOutput))) =
      some "\x7b1\x7d" ∧
    parseSupervisorOutput exampleJsonParse exampleSupOutput =
      exampleJsonParse "\x7b1\x7d" ∧
    exampleJsonParse "\x7b1\x7d" = some 1 :=
  ⟨rfl, by decide, by decide,
   (supervisor_output_fallback_chain exampleJsonParse exampleSupOutput
      rfl).2.2.1 (by decide) "\x7b1\x7d" (by decide),
   by decide⟩

/-- When the crew pipeline returns a verdict at all, that verdict carries
at least one retrieved source: the run aborts with no result unless some
dataset search produced context, and the aggregated sources are attached
to the verdict capped at `max(context_limit, 3) ≥ 3 > 0`. -/
theorem crewRun_some_sources_ne_nil {ds : List (List Source)}
    {p : Option ParsedVerdict} {l : ℕ} {r : MAResult}
    (h : crewRun ds p l = some r) : r.sources ≠ [] := by
  simp only [crewRun] at h
  by_cases he : ds.flatten.isEmpty
  · rw [if_pos he] at h
    exact Option.noConfusion h
  · rw [if_neg he] at h
    cases p with
    | none => exact Option.noConfusion h
    | some v =>
      obtain rfl := Option.some_inj.mp h
      intro hnil
      simp only at hnil
      rw [List.take_eq_nil_iff] at hnil
      rcases hnil with h1 | h1
      · have h3 : 3 ≤ max l 3 := le_max_right l 3
        omega
      · rw [List.isEmpty_iff] at he
        exact he h1

/-- C5: for a non-greeting, non-cached question, when no relevant
passage is found — the classical search returns nothing and the
multi-agent verdict (if any) cites no sources, which by
`crewRun_some_sources_ne_nil` forces the verdict to carry no usable
answer — the returned answer has confidence `0.0` and no sources. -/
theorem empty_retrieval_zero_confidence (question : String)
    (history : List HistoryEntry) (ds : List (List Source))
    (p : Option ParsedVerdict) (l : ℕ) (o : AskOracles)
    (hg : handleGreetings question = none)
    (hc : checkHistoryCache history question = none)
    (hma : o.ma = crewRun ds p l)
    (hs : o.searchResults = [])
    (hnosrc : ∀ r, o.ma = some r → answerTruthy r.answer = true →
      r.sources = []) :
    (askQuestion question history o).1.confidence_score = 0 ∧
    (askQuestion question history o).1.sources = [] := by
  have hclassic : classicPath question history o =
      ({ answer := noInfoText, sources := [], confidence_score := 0,
         processing_time := o.elapsed }, history) := by
    simp [classicPath, hs]
  simp only [askQuestion, hg, hc]
  cases hmo : o.ma with
  | none =>
    rw [hclassic]
    exact ⟨rfl, rfl⟩
  | some r =>
    have hff : answerTruthy r.answer = false := by
      cases hb : answerTruthy r.answer with
      | false => rfl
      | true =>
        exact absurd (hnosrc r hmo hb)
          (crewRun_some_sources_ne_nil (hma.symm.trans hmo))
    simp [hff, hclassic]

/-- Witness for C5 at a concrete question with empty retrieval and an
unavailable crew. -/
theorem empty_retrieval_zero_confidence_witness :
    handleGreetings "Quelle est la règle ?" = none ∧
    checkHistoryCache [] "Quelle est la règle ?" = none ∧
    emptyOracles.searchResults = [] ∧
    ((askQuestion "Quelle est la règle ?" [] emptyOracles).1.confidence_score
        = 0 ∧
      (askQuestion "Quelle est la règle ?" [] emptyOracles).1.sources =
        []) :=
  ⟨by decide, rfl, rfl,
   empty_retrieval_zero_confidence "Quelle est la règle ?" [] [[]] none 0
     emptyOracles (by decide) rfl rfl rfl
     (fun r hr _ => Option.noConfusion hr)⟩

/-- C7: any input whose trimmed lower-cased text equals one of the
configured greeting/closing/thanks phrases makes the pipeline return the
canned answer with confidence `1.0`, no sources and processing time `0`,
with the history left untouched and independent of every other oracle
(cache contents, retrieval, generation, validation) — they are all
bypassed. -/
theorem greeting_short_circuit (q : String)
    (hq : pyNormalize q ∈ greetingsList) :
    handleGreetings q = some (greetingResponseFor q) ∧
    (greetingResponseFor q).confidence_score = 1 ∧
    (greetingResponseFor q).sources = [] ∧
    (greetingResponseFor q).processing_time = 0 ∧
    ∀ (history : List HistoryEntry) (o : AskOracles),
      askQuestion q history o = (greetingResponseFor q, history) := by
  have hc : greetingsList.contains (pyNormalize q) = true :=
    List.elem_eq_true_of_mem hq
  have hsome : handleGreetings q = some (greetingResponseFor q) := by
    simp [handleGreetings, hc, hq]
  refine ⟨hsome, rfl, rfl, rfl, fun history o => ?_⟩
  simp [askQuestion, hsome]

/-- Witness for C7 at the concrete input `"Bonjour "`. -/
theorem greeting_short_circuit_witness :
    pyNormalize "Bonjour " ∈ greetingsList ∧
    (handleGreetings "Bonjour " =
        some (greetingResponseFor "Bonjour ") ∧
      (greetingResponseFor "Bonjour ").confidence_score = 1 ∧
      (greetingResponseFor "Bonjour ").sources = [] ∧
      (greetingResponseFor "Bonjour ").processing_time = 0 ∧
      ∀ (history : List HistoryEntry) (o : AskOracles),
        askQuestion "Bonjour " history o =
          (greetingResponseFor "Bonjour ", history)) :=
  ⟨by decide, greeting_short_circuit "Bonjour " (by decide)⟩

/-- C9: `clear_history` empties only the in-memory history and returns
`True`; it leaves the persisted file untouched (unlike an append, which
rewrites the file), so reloading after a restart brings back exactly the
entries that were on disk before the clear. -/
theorem clear_history_memory_only (s : RAGState) (id q : String)
    (a : AnswerResponse) :
    (clearHistory s).2 = true ∧
    (clearHistory s).1.conversation_history = [] ∧
    (clearHistory s).1.historyFile = s.historyFile ∧
    (loadHistoryFromFile (clearHistory s).1).conversation_history =
      s.historyFile.getD [] ∧
    (saveToHistoryState id q a s).historyFile =
      some (saveToHistory id q a s.conversation_history) :=
  ⟨rfl, rfl, rfl, rfl, rfl⟩

/-- C10: the exposed history listing returns the last `limit` entries in
stored order, except that `limit = 0` returns the entire history (the
Python slice `[-0:]` denotes the whole list). -/
theorem history_listing_slice (history : List HistoryEntry) (limit : ℕ) :
    (limit = 0 → getConversationHistory history limit = history) ∧
    (0 < limit → getConversationHistory history limit =
      (history.reverse.take limit).reverse) := by
  constructor
  · intro h
    simp [getConversationHistory, h]
  · intro h
    have hne : limit ≠ 0 := Nat.pos_iff_ne_zero.mp h
    simp only [getConversationHistory, if_neg hne]
    rw [List.reverse_take]
    simp

/-- Witness for C10 on a three-entry history with `limit = 0` and
`limit = 2`. -/
theorem history_listing_slice_witness :
    getConversationHistory exampleHistory 0 = exampleHistory ∧
    ((0 : ℕ) < 2 ∧
      getConversationHistory exampleHistory 2 =
        (exampleHistory.reverse.take 2).reverse) :=
  ⟨(history_listing_slice exampleHistory 0).1 rfl,
   by norm_num,
   (history_listing_slice exampleHistory 2).2 (by norm_num)⟩

end LegalAssistant
